import Mathlib

/-!
Verification of the client core of the zitadel-go client SDK
(`pkg/client/client.go`): the option machinery (`WithAuth`,
`WithGRPCDialOptions`), client construction (`New`, `newConnection`),
the per-RPC credential record `cred`, and the fourteen lazily
initialized, once-guarded service accessors of `Client`.

External collaborators (the gRPC transport, the oauth2 token source,
the generated service stubs) are modelled at their interface boundary:
a dial is recorded as a connection value capturing the target host and
the dial-option list, and a generated stub constructor produces a stub
value recording which service it is and which connection it is bound
to.  Construction of `New` is instrumented with an event trace so that
ordering properties (initializer invoked before the dial, dial never
reached on an initializer error) become statable.
-/

/-- Go error values, modelled as their message. -/
abbrev GoError := String

/-- Contexts carry no information relevant to this core. -/
abbrev Ctx := Unit

/-- Model of an oauth2 token source at its interface boundary: a
supplier of the current bearer token. -/
structure TokenSource where
  token : String
deriving DecidableEq, Repr

/-- Modelled from the spec: the issuer/host descriptor (`zitadel.Zitadel`,
defined outside the provided sources), which exposes the issuer origin,
the domain, the dial target host, the TLS flag and the
insecure-skip-verify flag. -/
structure Zitadel where
  origin : String
  domain : String
  host : String
  tls : Bool
  insecureSkipVerifyTLS : Bool
deriving DecidableEq, Repr

def Zitadel.Origin (z : Zitadel) : String := z.origin

def Zitadel.Domain (z : Zitadel) : String := z.domain

def Zitadel.Host (z : Zitadel) : String := z.host

def Zitadel.IsTLS (z : Zitadel) : Bool := z.tls

def Zitadel.IsInsecureSkipVerifyTLS (z : Zitadel) : Bool := z.insecureSkipVerifyTLS

/-- The signature of the caller-supplied token-source initializer
(`TokenSourceInitializer` in the source): given a context and the
issuer origin, produce a token source or fail. -/
abbrev TokenSourceInitializer := Ctx → String → Except GoError TokenSource

/-- The per-RPC credential record installed by `newConnection`
(`&cred{tls: zitadel.IsTLS(), tokenSource: tokenSource}` in the source). -/
structure Cred where
  tls : Bool
  tokenSource : Option TokenSource
deriving DecidableEq, Repr

/-- Modelled from the spec: the `RequireTransportSecurity` method of the
per-RPC credential record (its body is outside the provided sources);
it reports whether this credential mandates an encrypted transport,
returning true when TLS was enabled at construction and false otherwise. -/
def Cred.RequireTransportSecurity (c : Cred) : Bool := c.tls

/-- Modelled from the spec: the `GetRequestMetadata` method of the
per-RPC credential record (its body is outside the provided sources);
with a token source present it attaches the current token as a
bearer-style authorization header, and with no token source it attaches
no authorization header. -/
def Cred.GetRequestMetadata (c : Cred) (uris : List String) :
    Except GoError (List (String × String)) :=
  match c.tokenSource with
  | none => Except.ok []
  | some ts => Except.ok [("authorization", "Bearer " ++ ts.token)]

/-- The transport-security material selected for the dial. -/
inductive TransportCreds where
  | insecure
  | tlsVerified (domain : String)
  | tlsSkipVerify (domain : String)
deriving DecidableEq, Repr

/-- Modelled from the spec: `transportCredentials` (defined outside the
provided sources) selects plaintext credentials when TLS is disabled,
TLS with certificate validation when enabled, and TLS with validation
disabled when the skip-verify flag is set. -/
def transportCredentials (domain : String) (tls insecureSkipVerify : Bool) :
    Except GoError TransportCreds :=
  if tls then
    if insecureSkipVerify then Except.ok (TransportCreds.tlsSkipVerify domain)
    else Except.ok (TransportCreds.tlsVerified domain)
  else Except.ok TransportCreds.insecure

/-- Dial options: the two options `newConnection` installs itself, plus
opaque caller-supplied options (tagged by a number). -/
inductive GrpcDialOption where
  | withTransportCredentials (tc : TransportCreds)
  | withPerRPCCredentials (c : Cred)
  | custom (tag : Nat)
deriving DecidableEq, Repr

/-- Model of a gRPC client connection at its interface boundary: the
dialled host and the effective dial-option list. -/
structure ClientConn where
  host : String
  dialOptions : List GrpcDialOption
deriving DecidableEq, Repr

/-- Model of `grpc.DialContext`: establishes a connection to the target
recording the dial options. -/
def grpcDialContext (ctx : Ctx) (host : String) (dialOptions : List GrpcDialOption) :
    Except GoError ClientConn :=
  Except.ok { host := host, dialOptions := dialOptions }

/-- The accumulated configuration (`clientOptions` in the source). -/
structure clientOptions where
  initTokenSource : Option TokenSourceInitializer := none
  grpcDialOptions : List GrpcDialOption := []

/-- A configuration option (`Option` in the source, a mutator of
`clientOptions`). -/
abbrev ClientOption := clientOptions → clientOptions

/-- `WithAuth` stores the token-source initializer. -/
def WithAuth (initTokenSource : TokenSourceInitializer) : ClientOption :=
  fun c => { c with initTokenSource := some initTokenSource }

/-- `WithGRPCDialOptions` appends the given dial options to the already
accumulated ones. -/
def WithGRPCDialOptions (opts : List GrpcDialOption) : ClientOption :=
  fun c => { c with grpcDialOptions := c.grpcDialOptions ++ opts }

/-- The option-application loop at the top of `New`: start from the
zero value and apply each option in order. -/
def applyOptions (opts : List ClientOption) : clientOptions :=
  opts.foldl (fun acc o => o acc) {}

/-- `newConnection`: select transport credentials, install them and the
per-RPC credential record as the leading dial options, append the
caller-supplied dial options, and dial the host. -/
def newConnection (ctx : Ctx) (z : Zitadel) (tokenSource : Option TokenSource)
    (opts : List GrpcDialOption) : Except GoError ClientConn :=
  match transportCredentials z.Domain z.IsTLS z.IsInsecureSkipVerifyTLS with
  | Except.error e => Except.error e
  | Except.ok transportCreds =>
    let dialOptions : List GrpcDialOption :=
      [GrpcDialOption.withTransportCredentials transportCreds,
       GrpcDialOption.withPerRPCCredentials { tls := z.IsTLS, tokenSource := tokenSource }]
    grpcDialContext ctx z.Host (dialOptions ++ opts)

/-- The per-RPC credential record a connection carries, extracted from
its dial options. -/
def perRPCCredOf (c : ClientConn) : Option Cred :=
  c.dialOptions.findSome? fun o =>
    match o with
    | GrpcDialOption.withPerRPCCredentials cr => some cr
    | _ => none

deriving instance DecidableEq for Except

/-- Observable construction events, recorded by `New` in order: an
invocation of the token-source initializer (with the origin it was
given and the result it produced), and the dial of a host. -/
inductive Event where
  | initCall (origin : String) (result : Except GoError TokenSource)
  | dialCall (host : String)
deriving DecidableEq, Repr

/-- The fourteen logical services of the client. -/
inductive ServiceId where
  | systemService
  | adminService
  | managementService
  | userService
  | userServiceV2
  | authService
  | settingsService
  | settingsServiceV2
  | sessionService
  | sessionServiceV2
  | organizationService
  | organizationServiceV2
  | oidcService
  | oidcServiceV2
deriving DecidableEq, Repr

/-- Model of a generated service stub at its interface boundary: the
service it implements and the connection it is bound to. -/
structure Stub where
  service : ServiceId
  conn : ClientConn
deriving DecidableEq, Repr

/-- The `sync.Once` guards of the client (`clientOnce` in the source),
one done flag per service slot. -/
structure ClientOnce where
  systemService : Bool := false
  adminService : Bool := false
  managementService : Bool := false
  userService : Bool := false
  userServiceV2 : Bool := false
  authService : Bool := false
  settingsService : Bool := false
  settingsServiceV2 : Bool := false
  sessionService : Bool := false
  sessionServiceV2 : Bool := false
  organizationService : Bool := false
  organizationServiceV2 : Bool := false
  oidcService : Bool := false
  oidcServiceV2 : Bool := false
deriving DecidableEq, Repr

/-- The client: the shared connection, the once guards, and one slot
per service, empty until first access. -/
structure Client where
  connection : ClientConn
  once : ClientOnce := {}
  systemService : Option Stub := none
  adminService : Option Stub := none
  managementService : Option Stub := none
  userService : Option Stub := none
  userServiceV2 : Option Stub := none
  authService : Option Stub := none
  settingsService : Option Stub := none
  settingsServiceV2 : Option Stub := none
  sessionService : Option Stub := none
  sessionServiceV2 : Option Stub := none
  organizationService : Option Stub := none
  organizationServiceV2 : Option Stub := none
  oidcService : Option Stub := none
  oidcServiceV2 : Option Stub := none
deriving DecidableEq, Repr

/-- `New`: apply the options, invoke the token-source initializer when
one was installed (aborting on its error), build the connection, and
return a client holding only the connection.  The second component is
the trace of construction events, in order. -/
def New (ctx : Ctx) (z : Zitadel) (opts : List ClientOption) :
    Except GoError Client × List Event :=
  let options := applyOptions opts
  match options.initTokenSource with
  | none =>
    (match newConnection ctx z none options.grpcDialOptions with
     | Except.error e => (Except.error e, [Event.dialCall z.Host])
     | Except.ok conn => (Except.ok { connection := conn }, [Event.dialCall z.Host]))
  | some init =>
    (match init ctx z.Origin with
     | Except.error e => (Except.error e, [Event.initCall z.Origin (Except.error e)])
     | Except.ok source =>
       match newConnection ctx z (some source) options.grpcDialOptions with
       | Except.error e =>
         (Except.error e, [Event.initCall z.Origin (Except.ok source), Event.dialCall z.Host])
       | Except.ok conn =>
         (Except.ok { connection := conn },
          [Event.initCall z.Origin (Except.ok source), Event.dialCall z.Host]))

/-- Generated stub constructor for the system service, modelled at its
boundary: it binds a stub to the given connection. -/
def system.NewSystemServiceClient (cc : ClientConn) : Stub :=
  { service := ServiceId.systemService, conn := cc }

/-- Generated stub constructor for the admin service. -/
def admin.NewAdminServiceClient (cc : ClientConn) : Stub :=
  { service := ServiceId.adminService, conn := cc }

/-- Generated stub constructor for the management service. -/
def management.NewManagementServiceClient (cc : ClientConn) : Stub :=
  { service := ServiceId.managementService, conn := cc }

/-- Generated stub constructor for the v2beta user service. -/
def userV2Beta.NewUserServiceClient (cc : ClientConn) : Stub :=
  { service := ServiceId.userService, conn := cc }

/-- Generated stub constructor for the v2 user service. -/
def userV2.NewUserServiceClient (cc : ClientConn) : Stub :=
  { service := ServiceId.userServiceV2, conn := cc }

/-- Generated stub constructor for the auth service. -/
def auth.NewAuthServiceClient (cc : ClientConn) : Stub :=
  { service := ServiceId.authService, conn := cc }

/-- Generated stub constructor for the v2beta settings service. -/
def settingsV2Beta.NewSettingsServiceClient (cc : ClientConn) : Stub :=
  { service := ServiceId.settingsService, conn := cc }

/-- Generated stub constructor for the v2 settings service. -/
def settingsV2.NewSettingsServiceClient (cc : ClientConn) : Stub :=
  { service := ServiceId.settingsServiceV2, conn := cc }

/-- Generated stub constructor for the v2beta session service. -/
def sessionV2Beta.NewSessionServiceClient (cc : ClientConn) : Stub :=
  { service := ServiceId.sessionService, conn := cc }

/-- Generated stub constructor for the v2 session service. -/
def sessionV2.NewSessionServiceClient (cc : ClientConn) : Stub :=
  { service := ServiceId.sessionServiceV2, conn := cc }

/-- Generated stub constructor for the v2beta organization service. -/
def orgV2Beta.NewOrganizationServiceClient (cc : ClientConn) : Stub :=
  { service := ServiceId.organizationService, conn := cc }

/-- Generated stub constructor for the v2 organization service. -/
def orgV2.NewOrganizationServiceClient (cc : ClientConn) : Stub :=
  { service := ServiceId.organizationServiceV2, conn := cc }

/-- Generated stub constructor for the v2beta OIDC service. -/
def oidcV2Beta.NewOIDCServiceClient (cc : ClientConn) : Stub :=
  { service := ServiceId.oidcService, conn := cc }

/-- Generated stub constructor for the v2 OIDC service. -/
def oidcV2.NewOIDCServiceClient (cc : ClientConn) : Stub :=
  { service := ServiceId.oidcServiceV2, conn := cc }

/-- `Client.SystemService`: run the slot's once guard (construct the
stub bound to the shared connection and store it, only when the guard
has not run before) and return the slot's contents.  Each accessor
returns the value the caller receives, the post state, and whether this
call executed the construction. -/
def Client.SystemService (c : Client) : Option Stub × Client × Bool :=
  if c.once.systemService then (c.systemService, c, false)
  else
    let c2 := { c with once.systemService := true,
                       systemService := some (system.NewSystemServiceClient c.connection) }
    (c2.systemService, c2, true)

/-- `Client.AdminService`, in the pattern of `Client.SystemService`. -/
def Client.AdminService (c : Client) : Option Stub × Client × Bool :=
  if c.once.adminService then (c.adminService, c, false)
  else
    let c2 := { c with once.adminService := true,
                       adminService := some (admin.NewAdminServiceClient c.connection) }
    (c2.adminService, c2, true)

/-- `Client.ManagementService`, in the pattern of `Client.SystemService`. -/
def Client.ManagementService (c : Client) : Option Stub × Client × Bool :=
  if c.once.managementService then (c.managementService, c, false)
  else
    let c2 := { c with once.managementService := true,
                       managementService := some (management.NewManagementServiceClient c.connection) }
    (c2.managementService, c2, true)

/-- `Client.AuthService`, in the pattern of `Client.SystemService`. -/
def Client.AuthService (c : Client) : Option Stub × Client × Bool :=
  if c.once.authService then (c.authService, c, false)
  else
    let c2 := { c with once.authService := true,
                       authService := some (auth.NewAuthServiceClient c.connection) }
    (c2.authService, c2, true)

/-- `Client.UserService`, in the pattern of `Client.SystemService`. -/
def Client.UserService (c : Client) : Option Stub × Client × Bool :=
  if c.once.userService then (c.userService, c, false)
  else
    let c2 := { c with once.userService := true,
                       userService := some (userV2Beta.NewUserServiceClient c.connection) }
    (c2.userService, c2, true)

/-- `Client.UserServiceV2`, in the pattern of `Client.SystemService`. -/
def Client.UserServiceV2 (c : Client) : Option Stub × Client × Bool :=
  if c.once.userServiceV2 then (c.userServiceV2, c, false)
  else
    let c2 := { c with once.userServiceV2 := true,
                       userServiceV2 := some (userV2.NewUserServiceClient c.connection) }
    (c2.userServiceV2, c2, true)

/-- `Client.SettingsService`, in the pattern of `Client.SystemService`. -/
def Client.SettingsService (c : Client) : Option Stub × Client × Bool :=
  if c.once.settingsService then (c.settingsService, c, false)
  else
    let c2 := { c with once.settingsService := true,
                       settingsService := some (settingsV2Beta.NewSettingsServiceClient c.connection) }
    (c2.settingsService, c2, true)

/-- `Client.SettingsServiceV2`, in the pattern of `Client.SystemService`. -/
def Client.SettingsServiceV2 (c : Client) : Option Stub × Client × Bool :=
  if c.once.settingsServiceV2 then (c.settingsServiceV2, c, false)
  else
    let c2 := { c with once.settingsServiceV2 := true,
                       settingsServiceV2 := some (settingsV2.NewSettingsServiceClient c.connection) }
    (c2.settingsServiceV2, c2, true)

/-- `Client.SessionService`, in the pattern of `Client.SystemService`. -/
def Client.SessionService (c : Client) : Option Stub × Client × Bool :=
  if c.once.sessionService then (c.sessionService, c, false)
  else
    let c2 := { c with once.sessionService := true,
                       sessionService := some (sessionV2Beta.NewSessionServiceClient c.connection) }
    (c2.sessionService, c2, true)

/-- `Client.SessionServiceV2`, in the pattern of `Client.SystemService`. -/
def Client.SessionServiceV2 (c : Client) : Option Stub × Client × Bool :=
  if c.once.sessionServiceV2 then (c.sessionServiceV2, c, false)
  else
    let c2 := { c with once.sessionServiceV2 := true,
                       sessionServiceV2 := some (sessionV2.NewSessionServiceClient c.connection) }
    (c2.sessionServiceV2, c2, true)

/-- `Client.OIDCService`, in the pattern of `Client.SystemService`. -/
def Client.OIDCService (c : Client) : Option Stub × Client × Bool :=
  if c.once.oidcService then (c.oidcService, c, false)
  else
    let c2 := { c with once.oidcService := true,
                       oidcService := some (oidcV2Beta.NewOIDCServiceClient c.connection) }
    (c2.oidcService, c2, true)

/-- `Client.OIDCServiceV2`, in the pattern of `Client.SystemService`. -/
def Client.OIDCServiceV2 (c : Client) : Option Stub × Client × Bool :=
  if c.once.oidcServiceV2 then (c.oidcServiceV2, c, false)
  else
    let c2 := { c with once.oidcServiceV2 := true,
                       oidcServiceV2 := some (oidcV2.NewOIDCServiceClient c.connection) }
    (c2.oidcServiceV2, c2, true)

/-- `Client.OrganizationService`, in the pattern of `Client.SystemService`. -/
def Client.OrganizationService (c : Client) : Option Stub × Client × Bool :=
  if c.once.organizationService then (c.organizationService, c, false)
  else
    let c2 := { c with once.organizationService := true,
                       organizationService := some (orgV2Beta.NewOrganizationServiceClient c.connection) }
    (c2.organizationService, c2, true)

/-- `Client.OrganizationServiceV2`, in the pattern of `Client.SystemService`. -/
def Client.OrganizationServiceV2 (c : Client) : Option Stub × Client × Bool :=
  if c.once.organizationServiceV2 then (c.organizationServiceV2, c, false)
  else
    let c2 := { c with once.organizationServiceV2 := true,
                       organizationServiceV2 := some (orgV2.NewOrganizationServiceClient c.connection) }
    (c2.organizationServiceV2, c2, true)

/-- The contents of a service's slot. -/
def slotOf : ServiceId → Client → Option Stub
  | ServiceId.systemService, c => c.systemService
  | ServiceId.adminService, c => c.adminService
  | ServiceId.managementService, c => c.managementService
  | ServiceId.userService, c => c.userService
  | ServiceId.userServiceV2, c => c.userServiceV2
  | ServiceId.authService, c => c.authService
  | ServiceId.settingsService, c => c.settingsService
  | ServiceId.settingsServiceV2, c => c.settingsServiceV2
  | ServiceId.sessionService, c => c.sessionService
  | ServiceId.sessionServiceV2, c => c.sessionServiceV2
  | ServiceId.organizationService, c => c.organizationService
  | ServiceId.organizationServiceV2, c => c.organizationServiceV2
  | ServiceId.oidcService, c => c.oidcService
  | ServiceId.oidcServiceV2, c => c.oidcServiceV2

/-- The done flag of a service's once guard. -/
def onceOf : ServiceId → Client → Bool
  | ServiceId.systemService, c => c.once.systemService
  | ServiceId.adminService, c => c.once.adminService
  | ServiceId.managementService, c => c.once.managementService
  | ServiceId.userService, c => c.once.userService
  | ServiceId.userServiceV2, c => c.once.userServiceV2
  | ServiceId.authService, c => c.once.authService
  | ServiceId.settingsService, c => c.once.settingsService
  | ServiceId.settingsServiceV2, c => c.once.settingsServiceV2
  | ServiceId.sessionService, c => c.once.sessionService
  | ServiceId.sessionServiceV2, c => c.once.sessionServiceV2
  | ServiceId.organizationService, c => c.once.organizationService
  | ServiceId.organizationServiceV2, c => c.once.organizationServiceV2
  | ServiceId.oidcService, c => c.once.oidcService
  | ServiceId.oidcServiceV2, c => c.once.oidcServiceV2

/-- The state change a first access performs: mark the service's once
guard done and store the freshly constructed stub in its slot. -/
def updateSlot : ServiceId → Client → Client
  | ServiceId.systemService, c =>
    { c with once.systemService := true,
             systemService := some (system.NewSystemServiceClient c.connection) }
  | ServiceId.adminService, c =>
    { c with once.adminService := true,
             adminService := some (admin.NewAdminServiceClient c.connection) }
  | ServiceId.managementService, c =>
    { c with once.managementService := true,
             managementService := some (management.NewManagementServiceClient c.connection) }
  | ServiceId.userService, c =>
    { c with once.userService := true,
             userService := some (userV2Beta.NewUserServiceClient c.connection) }
  | ServiceId.userServiceV2, c =>
    { c with once.userServiceV2 := true,
             userServiceV2 := some (userV2.NewUserServiceClient c.connection) }
  | ServiceId.authService, c =>
    { c with once.authService := true,
             authService := some (auth.NewAuthServiceClient c.connection) }
  | ServiceId.settingsService, c =>
    { c with once.settingsService := true,
             settingsService := some (settingsV2Beta.NewSettingsServiceClient c.connection) }
  | ServiceId.settingsServiceV2, c =>
    { c with once.settingsServiceV2 := true,
             settingsServiceV2 := some (settingsV2.NewSettingsServiceClient c.connection) }
  | ServiceId.sessionService, c =>
    { c with once.sessionService := true,
             sessionService := some (sessionV2Beta.NewSessionServiceClient c.connection) }
  | ServiceId.sessionServiceV2, c =>
    { c with once.sessionServiceV2 := true,
             sessionServiceV2 := some (sessionV2.NewSessionServiceClient c.connection) }
  | ServiceId.organizationService, c =>
    { c with once.organizationService := true,
             organizationService := some (orgV2Beta.NewOrganizationServiceClient c.connection) }
  | ServiceId.organizationServiceV2, c =>
    { c with once.organizationServiceV2 := true,
             organizationServiceV2 := some (orgV2.NewOrganizationServiceClient c.connection) }
  | ServiceId.oidcService, c =>
    { c with once.oidcService := true,
             oidcService := some (oidcV2Beta.NewOIDCServiceClient c.connection) }
  | ServiceId.oidcServiceV2, c =>
    { c with once.oidcServiceV2 := true,
             oidcServiceV2 := some (oidcV2.NewOIDCServiceClient c.connection) }

/-- One accessor call, dispatched by service: each case is the
corresponding method of `Client`. -/
def serviceAccessor : ServiceId → Client → Option Stub × Client × Bool
  | ServiceId.systemService, c => c.SystemService
  | ServiceId.adminService, c => c.AdminService
  | ServiceId.managementService, c => c.ManagementService
  | ServiceId.userService, c => c.UserService
  | ServiceId.userServiceV2, c => c.UserServiceV2
  | ServiceId.authService, c => c.AuthService
  | ServiceId.settingsService, c => c.SettingsService
  | ServiceId.settingsServiceV2, c => c.SettingsServiceV2
  | ServiceId.sessionService, c => c.SessionService
  | ServiceId.sessionServiceV2, c => c.SessionServiceV2
  | ServiceId.organizationService, c => c.OrganizationService
  | ServiceId.organizationServiceV2, c => c.OrganizationServiceV2
  | ServiceId.oidcService, c => c.OIDCService
  | ServiceId.oidcServiceV2, c => c.OIDCServiceV2

/-- The stub a construction for a given service and connection yields. -/
def stubFor (sid : ServiceId) (cc : ClientConn) : Stub :=
  { service := sid, conn := cc }

theorem serviceAccessor_eq (sid : ServiceId) (c : Client) :
    serviceAccessor sid c =
      if onceOf sid c then (slotOf sid c, c, false)
      else (some (stubFor sid c.connection), updateSlot sid c, true) := by
  cases sid <;> rfl

theorem updateSlot_connection (sid : ServiceId) (c : Client) :
    (updateSlot sid c).connection = c.connection := by
  cases sid <;> rfl

theorem slotOf_updateSlot_self (sid : ServiceId) (c : Client) :
    slotOf sid (updateSlot sid c) = some (stubFor sid c.connection) := by
  cases sid <;> rfl

theorem onceOf_updateSlot_self (sid : ServiceId) (c : Client) :
    onceOf sid (updateSlot sid c) = true := by
  cases sid <;> rfl

theorem slotOf_updateSlot_ne (sid sid' : ServiceId) (c : Client) (h : sid' ≠ sid) :
    slotOf sid' (updateSlot sid c) = slotOf sid' c := by
  cases sid <;> cases sid' <;> first | rfl | exact absurd rfl h

theorem onceOf_updateSlot_ne (sid sid' : ServiceId) (c : Client) (h : sid' ≠ sid) :
    onceOf sid' (updateSlot sid c) = onceOf sid' c := by
  cases sid <;> cases sid' <;> first | rfl | exact absurd rfl h

theorem onceOf_fresh (sid : ServiceId) (conn : ClientConn) :
    onceOf sid { connection := conn } = false := by
  cases sid <;> rfl

theorem slotOf_fresh (sid : ServiceId) (conn : ClientConn) :
    slotOf sid { connection := conn } = none := by
  cases sid <;> rfl

/-- Repeated accessor calls on the same slot: the list of (value,
construction-ran) observations of each caller, in order, and the final
state.  Because the once guard runs its body atomically (a losing
caller of `sync.Once.Do` blocks until the winning body has completed
and the slot is populated), any concurrent execution of the accessor
by several callers observes the same results as some sequence of
accessor calls, which for a single slot is exactly this iteration. -/
def accessRepeat (sid : ServiceId) : Nat → Client → List (Option Stub × Bool) × Client
  | 0, c => ([], c)
  | Nat.succ n, c =>
    let r := serviceAccessor sid c
    let rest := accessRepeat sid n r.2.1
    ((r.1, r.2.2) :: rest.1, rest.2)

theorem accessRepeat_done (sid : ServiceId) (c : Client) (h : onceOf sid c = true) :
    ∀ n, accessRepeat sid n c = (List.replicate n (slotOf sid c, false), c) := by
  intro n
  induction n with
  | zero => rfl
  | succ n ih => simp [accessRepeat, serviceAccessor_eq, h, ih, List.replicate_succ]

/-- The accessor pattern of the source, instantiated with a stub
constructor that can fail: the once guard around a body that stores
the constructor's result into the slot.  Mirrors the documented
semantics of the sync.Once guard the source uses, whose body runs only
on the guard's first invocation and which treats even a body that
panics as having returned, so the guard is done after the first
attempt regardless of the body's outcome. -/
structure FallibleSlot where
  done : Bool := false
  slot : Option Stub := none
deriving DecidableEq, Repr

/-- One access to a fallible slot: returns the value handed to the
caller, the post state, and whether the construction body ran. -/
def fallibleAccess (construct : Unit → Option Stub) (s : FallibleSlot) :
    Option Stub × FallibleSlot × Bool :=
  if s.done then (s.slot, s, false)
  else
    let s2 : FallibleSlot := { done := true, slot := construct () }
    (s2.slot, s2, true)

/-- The transport credentials `newConnection` ends up selecting. -/
def tcFor (z : Zitadel) : TransportCreds :=
  if z.IsTLS then
    if z.IsInsecureSkipVerifyTLS then TransportCreds.tlsSkipVerify z.Domain
    else TransportCreds.tlsVerified z.Domain
  else TransportCreds.insecure

theorem transportCredentials_eq (z : Zitadel) :
    transportCredentials z.Domain z.IsTLS z.IsInsecureSkipVerifyTLS =
      Except.ok (tcFor z) := by
  cases h1 : z.IsTLS <;> cases h2 : z.IsInsecureSkipVerifyTLS <;>
    simp [transportCredentials, tcFor, h1, h2]

/-- The connection `newConnection` builds for a given descriptor, token
source and caller-supplied dial options. -/
def builtConn (z : Zitadel) (src : Option TokenSource) (gopts : List GrpcDialOption) :
    ClientConn :=
  { host := z.Host,
    dialOptions :=
      [GrpcDialOption.withTransportCredentials (tcFor z),
       GrpcDialOption.withPerRPCCredentials { tls := z.IsTLS, tokenSource := src }] ++ gopts }

theorem newConnection_eq (ctx : Ctx) (z : Zitadel) (src : Option TokenSource)
    (gopts : List GrpcDialOption) :
    newConnection ctx z src gopts = Except.ok (builtConn z src gopts) := by
  simp [newConnection, transportCredentials_eq, grpcDialContext, builtConn]

theorem perRPCCredOf_builtConn (z : Zitadel) (src : Option TokenSource)
    (gopts : List GrpcDialOption) :
    perRPCCredOf (builtConn z src gopts) = some { tls := z.IsTLS, tokenSource := src } := by
  simp [perRPCCredOf, builtConn, List.findSome?]

theorem New_no_initializer (ctx : Ctx) (z : Zitadel) (opts : List ClientOption)
    (h : (applyOptions opts).initTokenSource = none) :
    New ctx z opts =
      (Except.ok { connection := builtConn z none (applyOptions opts).grpcDialOptions },
       [Event.dialCall z.Host]) := by
  simp [New, h, newConnection_eq]

theorem New_initializer_error (ctx : Ctx) (z : Zitadel) (opts : List ClientOption)
    (f : TokenSourceInitializer) (e : GoError)
    (h : (applyOptions opts).initTokenSource = some f)
    (he : f ctx z.Origin = Except.error e) :
    New ctx z opts = (Except.error e, [Event.initCall z.Origin (Except.error e)]) := by
  simp [New, h, he]

theorem New_initializer_ok (ctx : Ctx) (z : Zitadel) (opts : List ClientOption)
    (f : TokenSourceInitializer) (ts : TokenSource)
    (h : (applyOptions opts).initTokenSource = some f)
    (hs : f ctx z.Origin = Except.ok ts) :
    New ctx z opts =
      (Except.ok { connection := builtConn z (some ts) (applyOptions opts).grpcDialOptions },
       [Event.initCall z.Origin (Except.ok ts), Event.dialCall z.Host]) := by
  simp [New, h, hs, newConnection_eq]

theorem serviceAccessor_fresh (sid : ServiceId) (conn : ClientConn) :
    serviceAccessor sid { connection := conn } =
      (some (stubFor sid conn), updateSlot sid { connection := conn }, true) := by
  simp [serviceAccessor_eq, onceOf_fresh]

theorem serviceAccessor_done (sid : ServiceId) (c : Client) (h : onceOf sid c = true) :
    serviceAccessor sid c = (slotOf sid c, c, false) := by
  simp [serviceAccessor_eq, h]

theorem countP_snd_replicate_false (m : Nat) (x : Option Stub) :
    List.countP (fun p => p.2) (List.replicate m (x, false)) = 0 := by
  induction m with
  | zero => rfl
  | succ m ih => simp [List.replicate_succ, List.countP_cons, ih]

/-- C1: for every service slot, when two or more callers invoke that
slot's accessor before its stub is constructed, exactly one execution
of the construction function occurs and every caller receives the
identical stub instance.  The once guard of the source runs its body
atomically, and a losing caller returns only once the winning body has
completed and populated the slot, so a concurrent execution of n
first-accesses observes the results of the n accessor calls run in
sequence; the theorem covers every such n. -/
theorem claim_C1_single_construction (conn : ClientConn) (sid : ServiceId) (n : Nat)
    (h : 2 ≤ n) :
    ((accessRepeat sid n { connection := conn }).1.countP (fun p => p.2) = 1) ∧
    (∀ p ∈ (accessRepeat sid n { connection := conn }).1,
        p.1 = some (stubFor sid conn)) := by
  obtain ⟨m, rfl⟩ : ∃ m, n = m + 1 := ⟨n - 1, by omega⟩
  have step : accessRepeat sid (m + 1) ({ connection := conn } : Client) =
      ((some (stubFor sid conn), true) ::
          List.replicate m (some (stubFor sid conn), false),
        updateSlot sid { connection := conn }) := by
    simp [accessRepeat, serviceAccessor_fresh,
          accessRepeat_done sid _ (onceOf_updateSlot_self sid _),
          slotOf_updateSlot_self]
  rw [step]
  constructor
  · simp [List.countP_cons, countP_snd_replicate_false]
  · intro p hp
    rcases List.mem_cons.mp hp with h1 | h2
    · rw [h1]
    · rw [List.eq_of_mem_replicate h2]

def sampleConn : ClientConn := { host := "id.example.com:443", dialOptions := [] }

/-- Closed instance of `claim_C1_single_construction` at two accesses
of the admin slot of a concrete fresh client. -/
theorem claim_C1_witness :
    2 ≤ 2 ∧
    (((accessRepeat ServiceId.adminService 2 { connection := sampleConn }).1.countP
        (fun p => p.2) = 1) ∧
     (∀ p ∈ (accessRepeat ServiceId.adminService 2 { connection := sampleConn }).1,
        p.1 = some (stubFor ServiceId.adminService sampleConn))) :=
  ⟨by decide, claim_C1_single_construction sampleConn ServiceId.adminService 2 (by decide)⟩

/-- C2: for every constructed client and every per-service accessor,
the first call constructs the stub bound to the shared connection
(construction ran, and the value is the stub for this service and this
connection), stores it in the slot, and every call returns the stored
stub; two sequential calls return the identical instance and the
construction runs only on the first call (the second call does not run
it and leaves the state unchanged). -/
theorem claim_C2_first_call_constructs_then_caches (conn : ClientConn) (sid : ServiceId) :
    (serviceAccessor sid { connection := conn }).2.2 = true ∧
    (serviceAccessor sid { connection := conn }).1 = some (stubFor sid conn) ∧
    slotOf sid (serviceAccessor sid { connection := conn }).2.1
        = (serviceAccessor sid { connection := conn }).1 ∧
    (serviceAccessor sid ((serviceAccessor sid { connection := conn }).2.1)).1
        = (serviceAccessor sid { connection := conn }).1 ∧
    (serviceAccessor sid ((serviceAccessor sid { connection := conn }).2.1)).2.2 = false ∧
    (serviceAccessor sid ((serviceAccessor sid { connection := conn }).2.1)).2.1
        = (serviceAccessor sid { connection := conn }).2.1 ∧
    (∀ c : Client, (serviceAccessor sid c).1 = slotOf sid ((serviceAccessor sid c).2.1)) := by
  have h1 := serviceAccessor_fresh sid conn
  have hdone := onceOf_updateSlot_self sid ({ connection := conn } : Client)
  have h2 := serviceAccessor_done sid _ hdone
  have hslot := slotOf_updateSlot_self sid ({ connection := conn } : Client)
  refine ⟨by rw [h1], by rw [h1], ?_, ?_, ?_, ?_, ?_⟩
  · rw [h1]; exact hslot
  · rw [h1]; rw [h2]; exact hslot
  · rw [h1]; rw [h2]
  · rw [h1]; rw [h2]
  · intro c
    by_cases hc : onceOf sid c = true
    · rw [serviceAccessor_done sid c hc]
    · rw [serviceAccessor_eq]
      simp only [Bool.not_eq_true] at hc
      simp [hc, slotOf_updateSlot_self]

/-- C9: a service accessor call changes nothing but its own slot: the
connection is unchanged, every other slot and once guard is unchanged,
a construction (when it ran) produced the stub bound to the client's
connection, and when every stored stub was bound to the shared
connection before the call, this still holds after it. -/
theorem claim_C9_accessor_frame (c : Client) (sid : ServiceId) :
    ((serviceAccessor sid c).2.1).connection = c.connection ∧
    (∀ sid', sid' ≠ sid →
        slotOf sid' ((serviceAccessor sid c).2.1) = slotOf sid' c ∧
        onceOf sid' ((serviceAccessor sid c).2.1) = onceOf sid' c) ∧
    ((serviceAccessor sid c).2.2 = true →
        (serviceAccessor sid c).1 = some (stubFor sid c.connection)) ∧
    ((∀ sid' s, slotOf sid' c = some s → s.conn = c.connection) →
        ∀ sid' s, slotOf sid' ((serviceAccessor sid c).2.1) = some s →
          s.conn = c.connection) := by
  by_cases hc : onceOf sid c = true
  · rw [serviceAccessor_done sid c hc]
    exact ⟨rfl, fun sid' _ => ⟨rfl, rfl⟩, by simp, fun hb => hb⟩
  · simp only [Bool.not_eq_true] at hc
    rw [serviceAccessor_eq]
    simp only [hc, if_false, Bool.false_eq_true]
    refine ⟨updateSlot_connection sid c, ?_, ?_, ?_⟩
    · intro sid' hne
      exact ⟨slotOf_updateSlot_ne sid sid' c hne, onceOf_updateSlot_ne sid sid' c hne⟩
    · intro h2
      first | rfl | trivial
    · intro hb sid' s hs
      by_cases hss : sid' = sid
      · subst hss
        rw [slotOf_updateSlot_self] at hs
        cases hs
        rfl
      · rw [slotOf_updateSlot_ne sid sid' c hss] at hs
        exact hb sid' s hs

/-- Closed instance of `claim_C9_accessor_frame`: accessing the admin
slot of a concrete fresh client leaves the system slot and guard
untouched. -/
theorem claim_C9_witness :
    ServiceId.systemService ≠ ServiceId.adminService ∧
    slotOf ServiceId.systemService
        ((serviceAccessor ServiceId.adminService { connection := sampleConn }).2.1)
      = slotOf ServiceId.systemService { connection := sampleConn } :=
  ⟨by decide,
   ((claim_C9_accessor_frame { connection := sampleConn } ServiceId.adminService).2.1
      ServiceId.systemService (by decide)).1⟩

/-- C3: when a credential provider was installed via `WithAuth` and its
token-source initializer fails, `New` returns no client together with
that same error, and the connection-building step is never reached (the
event trace records the initializer invocation and no dial). -/
theorem claim_C3_auth_init_error_aborts (ctx : Ctx) (z : Zitadel)
    (opts : List ClientOption) (f : TokenSourceInitializer) (e : GoError)
    (h : (applyOptions opts).initTokenSource = some f)
    (he : f ctx z.Origin = Except.error e) :
    New ctx z opts = (Except.error e, [Event.initCall z.Origin (Except.error e)]) ∧
    (∀ host, Event.dialCall host ∉ (New ctx z opts).2) := by
  have heq := New_initializer_error ctx z opts f e h he
  refine ⟨heq, ?_⟩
  intro host
  rw [heq]
  simp

def failingInit : TokenSourceInitializer := fun _ _ => Except.error "auth init failed"

def sampleZitadel : Zitadel :=
  { origin := "https://id.example.com", domain := "id.example.com",
    host := "id.example.com:443", tls := true, insecureSkipVerifyTLS := false }

/-- Closed instance of `claim_C3_auth_init_error_aborts` at a concrete
failing initializer. -/
theorem claim_C3_witness :
    (applyOptions [WithAuth failingInit]).initTokenSource = some failingInit ∧
    failingInit () sampleZitadel.Origin = Except.error "auth init failed" ∧
    New () sampleZitadel [WithAuth failingInit] =
      (Except.error "auth init failed",
       [Event.initCall sampleZitadel.Origin (Except.error "auth init failed")]) :=
  ⟨rfl, rfl,
   (claim_C3_auth_init_error_aborts () sampleZitadel [WithAuth failingInit]
      failingInit "auth init failed" rfl rfl).1⟩

/-- C4: the per-RPC credential injector is installed as a dial option
on every built connection, whatever the token source; and without
`WithAuth` the initializer is never invoked (no initializer event),
the injector carries no token source, and such an injector attaches no
authorization header to an outbound call. -/
theorem claim_C4_injector_always_installed (ctx : Ctx) (z : Zitadel)
    (opts : List ClientOption) (uris : List String)
    (h : (applyOptions opts).initTokenSource = none) :
    (∀ src gopts conn, newConnection ctx z src gopts = Except.ok conn →
        perRPCCredOf conn = some { tls := z.IsTLS, tokenSource := src }) ∧
    New ctx z opts =
      (Except.ok { connection := builtConn z none (applyOptions opts).grpcDialOptions },
       [Event.dialCall z.Host]) ∧
    (∀ origin r, Event.initCall origin r ∉ (New ctx z opts).2) ∧
    Cred.GetRequestMetadata { tls := z.IsTLS, tokenSource := none } uris = Except.ok [] := by
  have heq := New_no_initializer ctx z opts h
  refine ⟨?_, heq, ?_, rfl⟩
  · intro src gopts conn hconn
    rw [newConnection_eq] at hconn
    cases hconn
    exact perRPCCredOf_builtConn z src gopts
  · intro origin r
    rw [heq]
    simp

/-- Closed instance of `claim_C4_injector_always_installed` with an
empty option list. -/
theorem claim_C4_witness :
    (applyOptions ([] : List ClientOption)).initTokenSource = none ∧
    Cred.GetRequestMetadata { tls := sampleZitadel.IsTLS, tokenSource := none } []
      = Except.ok [] :=
  ⟨rfl, (claim_C4_injector_always_installed () sampleZitadel [] [] rfl).2.2.2⟩

/-- C5: the RequireTransportSecurity predicate of the per-RPC
credential installed at construction returns exactly the TLS flag of
the descriptor, and for a fixed TLS flag its value is identical with
and without a token source. -/
theorem claim_C5_require_transport_security (ctx : Ctx) (z : Zitadel)
    (src : Option TokenSource) (gopts : List GrpcDialOption) :
    (∀ conn, newConnection ctx z src gopts = Except.ok conn →
        ∃ cr, perRPCCredOf conn = some cr ∧
          cr.RequireTransportSecurity = z.IsTLS) ∧
    (∀ tls ts,
        Cred.RequireTransportSecurity { tls := tls, tokenSource := some ts } =
          Cred.RequireTransportSecurity { tls := tls, tokenSource := none }) := by
  constructor
  · intro conn hconn
    rw [newConnection_eq] at hconn
    cases hconn
    exact ⟨{ tls := z.IsTLS, tokenSource := src }, perRPCCredOf_builtConn z src gopts, rfl⟩
  · intro tls ts
    rfl

/-- Closed instance of `claim_C5_require_transport_security` at a
concrete descriptor whose connection is built without a token source. -/
theorem claim_C5_witness :
    newConnection () sampleZitadel none [] = Except.ok (builtConn sampleZitadel none []) ∧
    (∃ cr, perRPCCredOf (builtConn sampleZitadel none []) = some cr ∧
        cr.RequireTransportSecurity = sampleZitadel.IsTLS) :=
  ⟨newConnection_eq () sampleZitadel none [],
   (claim_C5_require_transport_security () sampleZitadel none []).1
     (builtConn sampleZitadel none []) (newConnection_eq () sampleZitadel none [])⟩

/-- C6: `WithGRPCDialOptions` is additive: applying it with A and then
with B appends A then B to the accumulated list (touching nothing
else), also when the two applications sit at the end of a longer option
list, and the connection built by a `New` call carrying the two options
has an effective dial-option list containing A then B, in order, after
the two options the builder installs itself. -/
theorem claim_C6_dial_options_append (c : clientOptions) (A B : List GrpcDialOption)
    (ctx : Ctx) (z : Zitadel) (opts : List ClientOption) :
    (WithGRPCDialOptions B (WithGRPCDialOptions A c)).grpcDialOptions
        = c.grpcDialOptions ++ A ++ B ∧
    (WithGRPCDialOptions B (WithGRPCDialOptions A c)).initTokenSource
        = c.initTokenSource ∧
    (applyOptions (opts ++ [WithGRPCDialOptions A, WithGRPCDialOptions B])).grpcDialOptions
        = (applyOptions opts).grpcDialOptions ++ A ++ B ∧
    (∃ cl, (New ctx z [WithGRPCDialOptions A, WithGRPCDialOptions B]).1 = Except.ok cl ∧
        cl.connection.dialOptions =
          [GrpcDialOption.withTransportCredentials (tcFor z),
           GrpcDialOption.withPerRPCCredentials { tls := z.IsTLS, tokenSource := none }]
            ++ (A ++ B)) := by
  refine ⟨by simp [WithGRPCDialOptions], rfl, ?_, ?_⟩
  · simp [applyOptions, List.foldl_append, WithGRPCDialOptions]
  · have heq := New_no_initializer ctx z [WithGRPCDialOptions A, WithGRPCDialOptions B] rfl
    refine ⟨_, by rw [heq], ?_⟩
    simp [builtConn, applyOptions, WithGRPCDialOptions]

/-- C7: when `WithAuth` was supplied and its initializer succeeds, the
initializer is invoked exactly once, strictly before the dial (the
trace is exactly one initializer event followed by the dial event), and
the token source it produced is the one wired into the installed
per-RPC credential injector. -/
theorem claim_C7_init_once_before_dial (ctx : Ctx) (z : Zitadel)
    (opts : List ClientOption) (f : TokenSourceInitializer) (ts : TokenSource)
    (h : (applyOptions opts).initTokenSource = some f)
    (hs : f ctx z.Origin = Except.ok ts) :
    (New ctx z opts).2 =
      [Event.initCall z.Origin (Except.ok ts), Event.dialCall z.Host] ∧
    (∃ cl, (New ctx z opts).1 = Except.ok cl ∧
        perRPCCredOf cl.connection = some { tls := z.IsTLS, tokenSource := some ts }) := by
  have heq := New_initializer_ok ctx z opts f ts h hs
  refine ⟨by rw [heq], ?_⟩
  refine ⟨_, by rw [heq], ?_⟩
  exact perRPCCredOf_builtConn z (some ts) (applyOptions opts).grpcDialOptions

def staticInit : TokenSourceInitializer := fun _ _ => Except.ok { token := "tok-123" }

/-- Closed instance of `claim_C7_init_once_before_dial` at a concrete
static-token initializer. -/
theorem claim_C7_witness :
    (applyOptions [WithAuth staticInit]).initTokenSource = some staticInit ∧
    staticInit () sampleZitadel.Origin = Except.ok { token := "tok-123" } ∧
    (New () sampleZitadel [WithAuth staticInit]).2 =
      [Event.initCall sampleZitadel.Origin (Except.ok { token := "tok-123" }),
       Event.dialCall sampleZitadel.Host] :=
  ⟨rfl, rfl,
   (claim_C7_init_once_before_dial () sampleZitadel [WithAuth staticInit]
      staticInit { token := "tok-123" } rfl rfl).1⟩

/-- C10: `WithAuth` overwrites: a second application replaces the
previously stored initializer (leaving the dial options untouched), so
with two applications the later initializer is the one `New` invokes;
`WithGRPCDialOptions`, in contrast, accumulates. -/
theorem claim_C10_with_auth_overwrites (c : clientOptions)
    (f g : TokenSourceInitializer) (ctx : Ctx) (z : Zitadel)
    (A B : List GrpcDialOption) :
    (WithAuth g (WithAuth f c)).initTokenSource = some g ∧
    (WithAuth g (WithAuth f c)).grpcDialOptions = c.grpcDialOptions ∧
    (applyOptions [WithAuth f, WithAuth g]).initTokenSource = some g ∧
    (New ctx z [WithAuth f, WithAuth g]).2.head?
        = some (Event.initCall z.Origin (g ctx z.Origin)) ∧
    (WithGRPCDialOptions B (WithGRPCDialOptions A c)).grpcDialOptions
        = c.grpcDialOptions ++ A ++ B := by
  refine ⟨rfl, rfl, rfl, ?_, by simp [WithGRPCDialOptions]⟩
  cases hg : g ctx z.Origin with
  | error e =>
    rw [New_initializer_error ctx z [WithAuth f, WithAuth g] g e rfl hg]
    rfl
  | ok ts =>
    rw [New_initializer_ok ctx z [WithAuth f, WithAuth g] g ts rfl hg]
    rfl

/-- C8 counterexample: instantiate the accessor pattern of the source
with a stub constructor that fails (stores nothing).  After the failed
first access the guard is marked done, and a subsequent access does not
re-attempt construction and still observes the empty slot — the
claimed retry-on-failure is absent from this code's once mechanism. -/
theorem claim_C8_counterexample :
    ((fallibleAccess (fun _ => none) {}).2.1).done = true ∧
    (fallibleAccess (fun _ => none) ((fallibleAccess (fun _ => none) {}).2.1)).2.2
        = false ∧
    (fallibleAccess (fun _ => none) ((fallibleAccess (fun _ => none) {}).2.1)).1
        = none := by
  refine ⟨rfl, rfl, rfl⟩

/-- C8 amended: in this code stub construction cannot fail — the first
access of any slot always stores a constructed stub — and the once
guard is done after the first attempt regardless of the body's
outcome, so a hypothetically failing construction would not be
re-attempted on the next access. -/
theorem claim_C8_no_retry_on_failure (conn : ClientConn) (sid : ServiceId)
    (construct : Unit → Option Stub) (s : FallibleSlot) :
    (serviceAccessor sid { connection := conn }).1 = some (stubFor sid conn) ∧
    ((fallibleAccess construct s).2.1).done = true ∧
    (fallibleAccess construct ((fallibleAccess construct s).2.1)).2.2 = false := by
  have hdone : ((fallibleAccess construct s).2.1).done = true := by
    by_cases h : s.done = true
    · simp [fallibleAccess, h]
    · simp only [Bool.not_eq_true] at h
      simp [fallibleAccess, h]
  refine ⟨by rw [serviceAccessor_fresh], hdone, ?_⟩
  have h2 : ∀ t : FallibleSlot, t.done = true → (fallibleAccess construct t).2.2 = false := by
    intro t ht
    simp [fallibleAccess, ht]
  exact h2 _ hdone
